import Mathlib

/-!
Shallow embedding of `src/safetynet.py` (class `SafetyNet`), a reactive
altitude safety monitor for a drone.  The Python class keeps mutable fields
`safe_alt`, `safe_mode`, `active`, `enabled`, `last_alt`, `last_alt_time`
and reacts to three dronekit attribute-change callbacks: `armed_callback`,
`mode_callback` and `location_callback`.  We model the mutable fields as a
state record, altitudes and timestamps as rationals (Python floats, used
only with ordering, subtraction and division here), the single effect that
matters — assigning `self.vehicle.mode` — as an explicit command list, and
the possible `ZeroDivisionError` in the vertical-rate computation as an
`Except` error.  Logging calls are pure observations and are dropped,
except that the computed vertical rate `v` (the only value the diagnostic
produces) is reported in the `diag` field of the location handler's result.
-/

set_option autoImplicit false

namespace SafetyNet

/-- The one externally visible command the monitor can issue:
`self.vehicle.mode = self.safe_mode` (safetynet.py line 91). -/
inductive Cmd where
  | setMode (mode : String)
deriving DecidableEq, Repr

/-- The mutable fields of the Python `SafetyNet` object:
`safe_alt`, `safe_mode`, `active`, `enabled`, `last_alt`, `last_alt_time`
(safetynet.py lines 17-23). -/
structure SNState where
  safe_alt : ℚ
  safe_mode : String
  active : Bool
  enabled : Bool
  last_alt : ℚ
  last_alt_time : ℚ
deriving DecidableEq, Repr

/-- `SafetyNet.__init__` (safetynet.py lines 15-31): fields start as
`active=False`, `enabled=False`, `last_alt=0`, `last_alt_time=0`; if the
vehicle is armed, `enable_safety_net()` sets `enabled=True`; if the current
altitude is strictly below `safe_alt`, `active` is set to `True`.  The
constructor only registers listeners and never assigns `vehicle.mode`, so
its command list is empty.  No validation of `safe_alt` or `safe_mode` is
performed by the source. -/
def init (safe_alt : ℚ) (safe_mode : String) (armed : Bool) (alt : ℚ) :
    SNState × List Cmd :=
  let s : SNState :=
    { safe_alt := safe_alt, safe_mode := safe_mode, active := false,
      enabled := false, last_alt := 0, last_alt_time := 0 }
  let s := if armed then { s with enabled := true } else s
  let s := if alt < safe_alt then { s with active := true } else s
  (s, [])

/-- `SafetyNet.armed_callback` (safetynet.py lines 54-60): arming calls
`enable_safety_net()` (which sets `enabled=True`), disarming calls
`disable_safety_net()` (which sets `enabled=False`); listener management
and logging are external effects with no bearing on the state fields, and
no command is issued. -/
def armed_callback (s : SNState) (aval : Bool) : SNState × List Cmd :=
  if aval then ({ s with enabled := true }, [])
  else ({ s with enabled := false }, [])

/-- `SafetyNet.mode_callback` (safetynet.py lines 62-68): if the new mode's
name is `LAND` or `RTL` set `enabled=False`, otherwise set `enabled=True`.
The handler reads nothing but the mode name (in particular not the armed
state) and issues no command. -/
def mode_callback (s : SNState) (mode_name : String) : SNState × List Cmd :=
  if mode_name = "LAND" ∨ mode_name = "RTL" then
    ({ s with enabled := false }, [])
  else
    ({ s with enabled := true }, [])

/-- The hysteresis policy at the end of `location_callback`
(safetynet.py lines 85-93): if `active` and `alt > safe_alt + 1`, clear
`active`; if not `active` and `alt <= safe_alt`, issue the mode-override
command and set `active`. -/
def hysteresis (s : SNState) (alt : ℚ) : SNState × List Cmd :=
  if s.active then
    if alt > s.safe_alt + 1 then ({ s with active := false }, [])
    else (s, [])
  else
    if alt ≤ s.safe_alt then
      ({ s with active := true }, [Cmd.setMode s.safe_mode])
    else (s, [])

/-- Result of one `location_callback` invocation: the new state, the
commands issued, and the vertical-rate diagnostic `v` when it was computed
(the value passed to `LOG.info` on line 80). -/
structure LocOut where
  state : SNState
  cmds : List Cmd
  diag : Option ℚ
deriving DecidableEq, Repr

/-- `SafetyNet.location_callback` (safetynet.py lines 70-93), with `alt`
the event's `aval.alt` and `now` the value of `time.time()`.  If `enabled`
is false, return with no change.  Otherwise, when `last_alt != 0`, compute
`v = (alt - last_alt) / (now - last_alt_time)`; Python raises
`ZeroDivisionError` when the elapsed time is zero, modelled as
`Except.error ()` (the exception propagates before `last_alt` or
`last_alt_time` are updated).  Then update `last_alt`/`last_alt_time` and
apply the hysteresis policy. -/
def location_callback (s : SNState) (alt now : ℚ) : Except Unit LocOut :=
  if s.enabled then
    if s.last_alt ≠ 0 then
      if now - s.last_alt_time = 0 then Except.error ()
      else
        let v := (alt - s.last_alt) / (now - s.last_alt_time)
        let r := hysteresis { s with last_alt := alt, last_alt_time := now } alt
        Except.ok ⟨r.1, r.2, some v⟩
    else
      let r := hysteresis { s with last_alt := alt, last_alt_time := now } alt
      Except.ok ⟨r.1, r.2, none⟩
  else
    Except.ok ⟨s, [], none⟩

/-- One asynchronous attribute-change event, tagged by which callback
dronekit would invoke (the payload of a location event carries the altitude
and the wall-clock time at which the callback runs). -/
inductive Event where
  | armed (aval : Bool)
  | mode (mode_name : String)
  | location (alt now : ℚ)
deriving DecidableEq, Repr

/-- Dispatch one event to its handler.  A `ZeroDivisionError` escaping
`location_callback` leaves the state unchanged (the raise happens before
any field assignment) and issues no command; dronekit isolates the failure
to that one event, so processing continues with the next event. -/
def step (s : SNState) (e : Event) : SNState × List Cmd :=
  match e with
  | Event.armed b => armed_callback s b
  | Event.mode n => mode_callback s n
  | Event.location alt now =>
      match location_callback s alt now with
      | Except.ok o => (o.state, o.cmds)
      | Except.error _ => (s, [])

/-- Process a list of events in order, concatenating the issued commands. -/
def run (s : SNState) (es : List Event) : SNState × List Cmd :=
  match es with
  | [] => (s, [])
  | e :: rest =>
      let r := step s e
      let r2 := run r.1 rest
      (r2.1, r.2 ++ r2.2)

/-- Process a list of location readings `(alt, now)` in order — an
altitude-only event sequence, as in the spec's "for all altitude
sequences" properties — concatenating the issued commands. -/
def runLocations (s : SNState) (l : List (ℚ × ℚ)) : SNState × List Cmd :=
  match l with
  | [] => (s, [])
  | p :: rest =>
      let r := step s (Event.location p.1 p.2)
      let r2 := runLocations r.1 rest
      (r2.1, r.2 ++ r2.2)

/-- Whether a `location_callback` invocation attempted the vertical-rate
computation: either it produced a diagnostic value or it raised the
division-by-zero error while attempting it. -/
def attemptedDiag (r : Except Unit LocOut) : Bool :=
  match r with
  | Except.error _ => true
  | Except.ok o => o.diag.isSome

/-! ### Case lemmas for the handlers -/

theorem hysteresis_clear (s : SNState) (alt : ℚ) (ha : s.active = true)
    (hl : alt > s.safe_alt + 1) :
    hysteresis s alt = ({ s with active := false }, []) := by
  simp [hysteresis, ha, hl]

theorem hysteresis_hold (s : SNState) (alt : ℚ) (ha : s.active = true)
    (hl : ¬ alt > s.safe_alt + 1) :
    hysteresis s alt = (s, []) := by
  simp [hysteresis, ha, hl]

theorem hysteresis_fire (s : SNState) (alt : ℚ) (ha : s.active = false)
    (hl : alt ≤ s.safe_alt) :
    hysteresis s alt = ({ s with active := true }, [Cmd.setMode s.safe_mode]) := by
  simp [hysteresis, ha, hl]

theorem hysteresis_idle (s : SNState) (alt : ℚ) (ha : s.active = false)
    (hl : ¬ alt ≤ s.safe_alt) :
    hysteresis s alt = (s, []) := by
  simp [hysteresis, ha, hl]

theorem hysteresis_fields (s : SNState) (alt : ℚ) :
    (hysteresis s alt).1.safe_alt = s.safe_alt ∧
    (hysteresis s alt).1.safe_mode = s.safe_mode ∧
    (hysteresis s alt).1.enabled = s.enabled ∧
    (hysteresis s alt).1.last_alt = s.last_alt ∧
    (hysteresis s alt).1.last_alt_time = s.last_alt_time := by
  unfold hysteresis
  split_ifs <;> simp

theorem loc_disabled (s : SNState) (alt now : ℚ) (h : s.enabled = false) :
    location_callback s alt now = Except.ok ⟨s, [], none⟩ := by
  simp [location_callback, h]

theorem loc_first (s : SNState) (alt now : ℚ) (h : s.enabled = true)
    (h0 : s.last_alt = 0) :
    location_callback s alt now =
      Except.ok
        ⟨(hysteresis { s with last_alt := alt, last_alt_time := now } alt).1,
         (hysteresis { s with last_alt := alt, last_alt_time := now } alt).2,
         none⟩ := by
  simp [location_callback, h, h0]

theorem loc_div_zero (s : SNState) (alt now : ℚ) (h : s.enabled = true)
    (h0 : s.last_alt ≠ 0) (ht : now - s.last_alt_time = 0) :
    location_callback s alt now = Except.error () := by
  simp [location_callback, h, h0, ht]

theorem loc_diag (s : SNState) (alt now : ℚ) (h : s.enabled = true)
    (h0 : s.last_alt ≠ 0) (ht : ¬ now - s.last_alt_time = 0) :
    location_callback s alt now =
      Except.ok
        ⟨(hysteresis { s with last_alt := alt, last_alt_time := now } alt).1,
         (hysteresis { s with last_alt := alt, last_alt_time := now } alt).2,
         some ((alt - s.last_alt) / (now - s.last_alt_time))⟩ := by
  simp [location_callback, h, h0, ht]

theorem step_armed_eq (s : SNState) (b : Bool) :
    step s (Event.armed b) = ({ s with enabled := b }, []) := by
  cases b <;> simp [step, armed_callback]

theorem step_mode_eq (s : SNState) (n : String) :
    step s (Event.mode n) =
      (if n = "LAND" ∨ n = "RTL" then ({ s with enabled := false }, [])
       else ({ s with enabled := true }, [])) := by
  simp [step, mode_callback]

theorem step_location_eq (s : SNState) (alt now : ℚ) :
    step s (Event.location alt now) =
      if s.enabled = true then
        if s.last_alt ≠ 0 ∧ now - s.last_alt_time = 0 then (s, [])
        else hysteresis { s with last_alt := alt, last_alt_time := now } alt
      else (s, []) := by
  by_cases h : s.enabled = true
  · by_cases h0 : s.last_alt = 0
    · simp [step, loc_first s alt now h h0, h, h0]
    · by_cases ht : now - s.last_alt_time = 0
      · simp [step, loc_div_zero s alt now h h0 ht, h, h0, ht]
      · simp [step, loc_diag s alt now h h0 ht, h, h0, ht]
  · have h' : s.enabled = false := by simpa using h
    simp [step, loc_disabled s alt now h', h]

theorem init_spec (sa : ℚ) (sm : String) (armed : Bool) (alt : ℚ) :
    init sa sm armed alt =
      ({ safe_alt := sa, safe_mode := sm, active := decide (alt < sa),
         enabled := armed, last_alt := 0, last_alt_time := 0 }, []) := by
  cases armed <;> by_cases h2 : alt < sa <;> simp [init, h2]

/-! ### Single-step invariants -/

theorem step_config (s : SNState) (e : Event) :
    (step s e).1.safe_alt = s.safe_alt ∧ (step s e).1.safe_mode = s.safe_mode := by
  cases e with
  | armed b => rw [step_armed_eq]; exact ⟨rfl, rfl⟩
  | mode n =>
      rw [step_mode_eq]
      split_ifs <;> exact ⟨rfl, rfl⟩
  | location alt now =>
      rw [step_location_eq]
      split_ifs with h1 h2
      · exact ⟨rfl, rfl⟩
      · exact ⟨(hysteresis_fields _ _).1, (hysteresis_fields _ _).2.1⟩
      · exact ⟨rfl, rfl⟩

theorem step_location_enabled (s : SNState) (alt now : ℚ) :
    (step s (Event.location alt now)).1.enabled = s.enabled := by
  rw [step_location_eq]
  split_ifs with h1 h2
  · rfl
  · exact (hysteresis_fields _ _).2.2.1
  · rfl

theorem active_clear_step (s : SNState) (e : Event) (ha : s.active = true)
    (hc : (step s e).1.active = false) :
    ∃ alt now, e = Event.location alt now ∧ s.enabled = true ∧
      alt > s.safe_alt + 1 := by
  cases e with
  | armed b =>
      rw [step_armed_eq] at hc
      rw [show ({ s with enabled := b } : SNState).active = s.active from rfl, ha] at hc
      cases hc
  | mode n =>
      rw [step_mode_eq] at hc
      split_ifs at hc <;> rw [show ∀ b, ({ s with enabled := b } : SNState).active = s.active from fun _ => rfl, ha] at hc <;> cases hc
  | location alt now =>
      rw [step_location_eq] at hc
      split_ifs at hc with h1 h2
      · rw [ha] at hc; cases hc
      · by_cases hl : alt > s.safe_alt + 1
        · exact ⟨alt, now, rfl, h1, hl⟩
        · rw [hysteresis_hold _ _ (by simpa using ha) (by simpa using hl)] at hc
          rw [show ({ s with last_alt := alt, last_alt_time := now } : SNState).active = s.active from rfl, ha] at hc
          cases hc
      · rw [ha] at hc; cases hc

theorem step_fire_iff (s : SNState) (e : Event) :
    ((step s e).2 ≠ [] ↔ s.active = false ∧ (step s e).1.active = true) ∧
    ((step s e).2 ≠ [] → (step s e).2 = [Cmd.setMode s.safe_mode]) ∧
    (s.active = false → (step s e).1.active = true →
      ∃ alt now, e = Event.location alt now ∧ s.enabled = true ∧
        alt ≤ s.safe_alt) := by
  cases e with
  | armed b =>
      rw [step_armed_eq]
      refine ⟨by simp, by simp, fun h1 h2 => ?_⟩
      rw [show ({ s with enabled := b } : SNState).active = s.active from rfl, h1] at h2
      cases h2
  | mode n =>
      rw [step_mode_eq]
      split_ifs <;>
        · refine ⟨by simp, by simp, fun h1 h2 => ?_⟩
          rw [show ∀ c, ({ s with enabled := c } : SNState).active = s.active from fun _ => rfl, h1] at h2
          cases h2
  | location alt now =>
      rw [step_location_eq]
      split_ifs with h1 h2
      · refine ⟨by simp [And.comm], by simp, fun hf h2 => ?_⟩
        rw [hf] at h2; cases h2
      · cases ha : s.active with
        | true =>
            by_cases hl : alt > s.safe_alt + 1
            · rw [hysteresis_clear _ _ (by simp) (by simpa using hl)]
              refine ⟨by simp, by simp, fun hf _ => ?_⟩
              simp at hf
            · rw [hysteresis_hold _ _ (by simp) (by simpa using hl)]
              refine ⟨by simp, by simp, fun hf _ => ?_⟩
              simp at hf
        | false =>
            by_cases hl : alt ≤ s.safe_alt
            · rw [hysteresis_fire _ _ (by simp) (by simpa using hl)]
              exact ⟨by simp, by simp, fun _ _ => ⟨alt, now, rfl, h1, hl⟩⟩
            · rw [hysteresis_idle _ _ (by simp) (by simpa using hl)]
              refine ⟨by simp, by simp, fun _ hcontra => ?_⟩
              simp at hcontra
      · refine ⟨by simp [And.comm], by simp, fun hf h2 => ?_⟩
        rw [hf] at h2; cases h2

/-! ### Claims -/

/-- C1: no mode-override command is issued while `enabled` is false,
regardless of the altitude in the event: a disabled `location_callback`
returns immediately with no command and no state change.  In particular,
after `mode_callback` receives `RTL` (which sets `enabled := false` and
leaves `active` untouched), a subsequent altitude event — e.g. at 5 meters
— issues no command and does not clear `active`. -/
theorem c1_no_command_while_disabled (s : SNState) (alt now : ℚ) :
    (s.enabled = false → location_callback s alt now = Except.ok ⟨s, [], none⟩) ∧
    ((mode_callback s "RTL").1.enabled = false ∧
     (mode_callback s "RTL").1.active = s.active ∧
     location_callback (mode_callback s "RTL").1 alt now =
       Except.ok ⟨(mode_callback s "RTL").1, [], none⟩) := by
  have hm : (mode_callback s "RTL").1 = { s with enabled := false } := by
    simp [mode_callback]
  refine ⟨fun h => loc_disabled s alt now h, by rw [hm], by rw [hm], ?_⟩
  rw [hm]
  exact loc_disabled _ alt now rfl

/-- Witness for C1 at a concrete triggered-but-disabled state and a
5-meter altitude event. -/
theorem c1_no_command_while_disabled_witness :
    ((⟨10, "BRAKE", true, false, 0, 0⟩ : SNState).enabled = false) ∧
    location_callback (⟨10, "BRAKE", true, false, 0, 0⟩ : SNState) 5 1 =
      Except.ok ⟨⟨10, "BRAKE", true, false, 0, 0⟩, [], none⟩ :=
  ⟨rfl, (c1_no_command_while_disabled ⟨10, "BRAKE", true, false, 0, 0⟩ 5 1).1 rfl⟩

/-- C2: after construction, `active` goes false→true exactly when a
location event is processed with `enabled = true` and altitude ≤
`safe_alt`, and the mode-override command is issued exactly on that
transition (the command list of any step is `[]` or the single
`setMode safe_mode`, and it is the latter iff the step flips `active`
from false to true). -/
theorem c2_command_exactly_on_trigger (s : SNState) (e : Event) :
    ((step s e).2 = [Cmd.setMode s.safe_mode] ↔
      s.active = false ∧ (step s e).1.active = true) ∧
    ((step s e).2 = [] ∨ (step s e).2 = [Cmd.setMode s.safe_mode]) ∧
    (s.active = false → (step s e).1.active = true →
      ∃ alt now, e = Event.location alt now ∧ s.enabled = true ∧
        alt ≤ s.safe_alt) := by
  obtain ⟨h1, h2, h3⟩ := step_fire_iff s e
  refine ⟨⟨fun hc => h1.mp (by simp [hc]), fun ht => h2 (h1.mpr ht)⟩, ?_, h3⟩
  by_cases hn : (step s e).2 = []
  · exact Or.inl hn
  · exact Or.inr (h2 hn)

/-- Witness for C2 at a concrete enabled, untriggered state and a
location event at 8 meters, which fires the command. -/
theorem c2_command_exactly_on_trigger_witness :
    (step ⟨10, "BRAKE", false, true, 0, 0⟩ (Event.location 8 1)).2 =
      [Cmd.setMode "BRAKE"] :=
  (c2_command_exactly_on_trigger ⟨10, "BRAKE", false, true, 0, 0⟩
    (Event.location 8 1)).1.mpr
    ⟨rfl, by norm_num [step, location_callback, hysteresis]⟩

/-- C5 counterexample: with a nonzero previous altitude sample and zero
elapsed time, `location_callback` raises `ZeroDivisionError` (the
`Except.error` result): the vertical-rate computation is NOT skipped on
zero elapsed time and the exception escapes the handler. -/
theorem c5_counterexample :
    location_callback ⟨10, "BRAKE", false, true, 5, 3⟩ 7 3 =
      Except.error () := by
  norm_num [location_callback]

/-- C5 amended: the vertical-rate computation is skipped exactly on the
no-previous-sample sentinel `last_alt = 0` (so the very first reading
never divides); it is not guarded against zero elapsed time: with
`enabled = true`, the handler raises the division-by-zero error iff
`last_alt ≠ 0` and the elapsed time `now - last_alt_time` is zero, and
in that case the exception escapes the handler. -/
theorem c5_div_by_zero_guard (s : SNState) (alt now : ℚ)
    (hen : s.enabled = true) :
    (location_callback s alt now = Except.error () ↔
      s.last_alt ≠ 0 ∧ now - s.last_alt_time = 0) ∧
    (s.last_alt = 0 →
      location_callback s alt now =
        Except.ok
          ⟨(hysteresis { s with last_alt := alt, last_alt_time := now } alt).1,
           (hysteresis { s with last_alt := alt, last_alt_time := now } alt).2,
           none⟩) := by
  refine ⟨⟨fun he => ?_, fun hz => loc_div_zero s alt now hen hz.1 hz.2⟩,
          fun h0 => loc_first s alt now hen h0⟩
  by_cases h0 : s.last_alt = 0
  · rw [loc_first s alt now hen h0] at he
    simp at he
  · by_cases ht : now - s.last_alt_time = 0
    · exact ⟨h0, ht⟩
    · rw [loc_diag s alt now hen h0 ht] at he
      simp at he

/-- Witness for C5's amended statement, at a state with elapsed time
zero since the previous sample. -/
theorem c5_div_by_zero_guard_witness :
    ((⟨10, "BRAKE", false, true, 5, 8⟩ : SNState).enabled = true) ∧
    location_callback (⟨10, "BRAKE", false, true, 5, 8⟩ : SNState) 7 8 =
      Except.error () :=
  ⟨rfl, (c5_div_by_zero_guard ⟨10, "BRAKE", false, true, 5, 8⟩ 7 8 rfl).1.mpr
    (by norm_num)⟩

/-- C9: `mode_callback` sets `enabled := false` when the new mode name is
`LAND` or `RTL` and `enabled := true` for any other name, issues no
command, and its effect on `enabled` is the same regardless of any
preceding armed-state event (it never consults the armed state). -/
theorem c9_mode_sets_enabled (s : SNState) (n : String) :
    ((n = "LAND" ∨ n = "RTL") →
      (mode_callback s n).1 = { s with enabled := false }) ∧
    (¬(n = "LAND" ∨ n = "RTL") →
      (mode_callback s n).1 = { s with enabled := true }) ∧
    (mode_callback s n).2 = [] ∧
    (∀ b : Bool, (mode_callback (armed_callback s b).1 n).1.enabled =
      (mode_callback s n).1.enabled) := by
  refine ⟨fun h => by simp [mode_callback, h], fun h => by simp [mode_callback, h],
          ?_, ?_⟩
  · by_cases h : n = "LAND" ∨ n = "RTL" <;> simp [mode_callback, h]
  · intro b
    cases b <;> by_cases h : n = "LAND" ∨ n = "RTL" <;>
      simp [mode_callback, armed_callback, h]

/-- Witness for C9 at a concrete state receiving mode `RTL`. -/
theorem c9_mode_sets_enabled_witness :
    (mode_callback (⟨10, "BRAKE", true, true, 0, 0⟩ : SNState) "RTL").1 =
      { (⟨10, "BRAKE", true, true, 0, 0⟩ : SNState) with enabled := false } :=
  (c9_mode_sets_enabled ⟨10, "BRAKE", true, true, 0, 0⟩ "RTL").1 (Or.inr rfl)

/-- C10: `last_alt = 0` is the "no previous sample" sentinel: while
`enabled`, the vertical-rate diagnostic is attempted iff the stored
`last_alt` is nonzero, and after a reading whose altitude is exactly 0
the next reading's diagnostic is skipped, exactly as on the very first
reading. -/
theorem c10_zero_alt_sentinel (s : SNState) (alt now alt2 now2 : ℚ)
    (hen : s.enabled = true) :
    (attemptedDiag (location_callback s alt now) = true ↔ s.last_alt ≠ 0) ∧
    (∀ out : LocOut, location_callback s 0 now = Except.ok out →
      attemptedDiag (location_callback out.state alt2 now2) = false) := by
  constructor
  · by_cases h0 : s.last_alt = 0
    · rw [loc_first s alt now hen h0]
      simp [attemptedDiag, h0]
    · by_cases ht : now - s.last_alt_time = 0
      · rw [loc_div_zero s alt now hen h0 ht]
        simp [attemptedDiag, h0]
      · rw [loc_diag s alt now hen h0 ht]
        simp [attemptedDiag, h0]
  · intro out hout
    have hst : out.state.enabled = true ∧ out.state.last_alt = 0 := by
      by_cases h0 : s.last_alt = 0
      · rw [loc_first s 0 now hen h0] at hout
        injection hout with h
        rw [← h]
        exact ⟨by rw [(hysteresis_fields _ _).2.2.1]; exact hen,
               by rw [(hysteresis_fields _ _).2.2.2.1]⟩
      · by_cases ht : now - s.last_alt_time = 0
        · rw [loc_div_zero s 0 now hen h0 ht] at hout
          simp at hout
        · rw [loc_diag s 0 now hen h0 ht] at hout
          injection hout with h
          rw [← h]
          exact ⟨by rw [(hysteresis_fields _ _).2.2.1]; exact hen,
                 by rw [(hysteresis_fields _ _).2.2.2.1]⟩
    rw [loc_first out.state alt2 now2 hst.1 hst.2]
    simp [attemptedDiag]

/-- Witness for C10 at a concrete enabled state with a nonzero previous
sample. -/
theorem c10_zero_alt_sentinel_witness :
    ((⟨10, "BRAKE", false, true, 5, 1⟩ : SNState).enabled = true) ∧
    (attemptedDiag (location_callback ⟨10, "BRAKE", false, true, 5, 1⟩ 7 2) =
        true ↔ (⟨10, "BRAKE", false, true, 5, 1⟩ : SNState).last_alt ≠ 0) :=
  ⟨rfl, (c10_zero_alt_sentinel ⟨10, "BRAKE", false, true, 5, 1⟩ 7 2 3 4 rfl).1⟩

/-- C3: for all event sequences, once `active` is true it stays true
until a location event with altitude strictly greater than
`safe_alt + 1` is processed while `enabled` is true: if `active` is
false after a run, the sequence contains such a location event (and in
particular no armed-state change, mode change, or other altitude value
clears it). -/
theorem c3_triggered_persists (s : SNState) (es : List Event)
    (ha : s.active = true) (hc : (run s es).1.active = false) :
    ∃ pre alt now post,
      es = pre ++ Event.location alt now :: post ∧
      (run s pre).1.enabled = true ∧ alt > s.safe_alt + 1 := by
  induction es generalizing s with
  | nil => simp [run, ha] at hc
  | cons e rest ih =>
      simp only [run] at hc
      cases h1 : (step s e).1.active with
      | true =>
          obtain ⟨pre, alt, now, post, hes, hen, hgt⟩ := ih (step s e).1 h1 hc
          refine ⟨e :: pre, alt, now, post, by simp [hes], ?_, ?_⟩
          · show (run s (e :: pre)).1.enabled = true
            simp only [run]
            exact hen
          · rw [(step_config s e).1] at hgt
            exact hgt
      | false =>
          obtain ⟨alt, now, he, hen, hgt⟩ := active_clear_step s e ha h1
          exact ⟨[], alt, now, rest, by simp [he], by simpa [run] using hen, hgt⟩

/-- Witness for C3: from a triggered, enabled state, a single 12-meter
reading (above the 11-meter hysteresis exit) clears `active`, and the
sequence indeed contains such an event. -/
theorem c3_triggered_persists_witness :
    ((⟨10, "BRAKE", true, true, 0, 0⟩ : SNState).active = true) ∧
    ((run ⟨10, "BRAKE", true, true, 0, 0⟩ [Event.location 12 1]).1.active =
      false) ∧
    (∃ pre alt now post,
      [Event.location (12 : ℚ) (1 : ℚ)] = pre ++ Event.location alt now :: post ∧
      (run (⟨10, "BRAKE", true, true, 0, 0⟩ : SNState) pre).1.enabled = true ∧
      alt > (⟨10, "BRAKE", true, true, 0, 0⟩ : SNState).safe_alt + 1) :=
  ⟨rfl, by norm_num [run, step, location_callback, hysteresis],
   c3_triggered_persists ⟨10, "BRAKE", true, true, 0, 0⟩ [Event.location 12 1]
     rfl (by norm_num [run, step, location_callback, hysteresis])⟩

theorem runLocations_cmds_bound (l : List (ℚ × ℚ)) : ∀ s : SNState,
    s.enabled = true → (∀ p ∈ l, p.1 ≤ s.safe_alt + 1) →
    (runLocations s l).2.length ≤ (if s.active = true then 0 else 1) := by
  induction l with
  | nil =>
      intro s _ _
      simp [runLocations]
  | cons p rest ih =>
      intro s hen hlow
      have hlow_head : p.1 ≤ s.safe_alt + 1 := hlow p (List.mem_cons_self p rest)
      have hlow_rest :
          ∀ q ∈ rest, q.1 ≤ (step s (Event.location p.1 p.2)).1.safe_alt + 1 := by
        intro q hq
        rw [(step_config s (Event.location p.1 p.2)).1]
        exact hlow q (List.mem_cons_of_mem p hq)
      have hen' : (step s (Event.location p.1 p.2)).1.enabled = true := by
        rw [step_location_enabled]
        exact hen
      have hrec := ih (step s (Event.location p.1 p.2)).1 hen' hlow_rest
      simp only [runLocations, List.length_append]
      cases ha : s.active with
      | true =>
          have hcmds : (step s (Event.location p.1 p.2)).2 = [] := by
            by_contra hne
            have hfa := ((step_fire_iff s (Event.location p.1 p.2)).1.mp hne).1
            rw [ha] at hfa
            cases hfa
          have hact : (step s (Event.location p.1 p.2)).1.active = true := by
            by_contra hne
            have hne' : (step s (Event.location p.1 p.2)).1.active = false := by
              simpa using hne
            obtain ⟨alt', now', heq, _, hgt⟩ :=
              active_clear_step s (Event.location p.1 p.2) ha hne'
            injection heq with heq1 heq2
            rw [← heq1] at hgt
            exact absurd hgt (not_lt.mpr hlow_head)
          have hrec' :
              (runLocations (step s (Event.location p.1 p.2)).1 rest).2 = [] := by
            rw [hact] at hrec
            simpa using hrec
          simp [hcmds, hrec']
      | false =>
          by_cases hne : (step s (Event.location p.1 p.2)).2 = []
          · have hact : (step s (Event.location p.1 p.2)).1.active = false := by
              by_contra hcon
              have hcon' : (step s (Event.location p.1 p.2)).1.active = true := by
                simpa using hcon
              exact ((step_fire_iff s (Event.location p.1 p.2)).1.mpr
                ⟨ha, hcon'⟩) hne
            rw [hact] at hrec
            simp at hrec
            simp [hne]
            exact hrec
          · have hone := (step_fire_iff s (Event.location p.1 p.2)).2.1 hne
            have htrans := (step_fire_iff s (Event.location p.1 p.2)).1.mp hne
            have hrec' :
                (runLocations (step s (Event.location p.1 p.2)).1 rest).2 = [] := by
              rw [htrans.2] at hrec
              simpa using hrec
            simp [hone, hrec']

/-- C4: for all altitude sequences processed while `enabled` stays true,
the mode-override command is issued at most once per contiguous
excursion: as long as no reading exceeds `safe_alt + 1` (so the
hysteresis exit is never crossed), the whole run issues at most one
command. -/
theorem c4_one_command_per_excursion (s : SNState) (l : List (ℚ × ℚ))
    (hen : s.enabled = true) (hlow : ∀ p ∈ l, p.1 ≤ s.safe_alt + 1) :
    (runLocations s l).2.length ≤ 1 := by
  have h := runLocations_cmds_bound l s hen hlow
  split_ifs at h with ha
  · exact h.trans (by norm_num)
  · exact h

/-- Witness for C4: an oscillating low-altitude sequence (8, 7, 9 meters
against `safe_alt = 10`) issues exactly one command. -/
theorem c4_one_command_per_excursion_witness :
    ((⟨10, "BRAKE", false, true, 0, 0⟩ : SNState).enabled = true) ∧
    (runLocations ⟨10, "BRAKE", false, true, 0, 0⟩
      [(8, 1), (7, 2), (9, 3)]).2.length ≤ 1 :=
  ⟨rfl, c4_one_command_per_excursion ⟨10, "BRAKE", false, true, 0, 0⟩
    [(8, 1), (7, 2), (9, 3)] rfl
    (by intro p hp; fin_cases hp <;> norm_num)⟩

/-- C6 counterexample: the constructor performs no validation.  With the
invalid configuration safe altitude `-5` and empty safe-mode string,
construction (armed, at altitude 3) returns a normal monitor state — no
configuration error — and that monitor even goes on to issue the
mode-override command with the empty mode identifier on a later low
reading. -/
theorem c6_counterexample :
    init (-5) "" true 3 =
      ({ safe_alt := -5, safe_mode := "", active := false, enabled := true,
         last_alt := 0, last_alt_time := 0 }, []) ∧
    (step (init (-5) "" true 3).1 (Event.location (-7) 1)).2 =
      [Cmd.setMode ""] := by
  constructor
  · norm_num [init]
  · norm_num [init, step, location_callback, hysteresis]

/-- C6 amended: construction never fails and performs no configuration
validation: for every safe altitude (including non-positive ones) and
every safe-mode string (including the empty one) it returns a monitor
state holding exactly the given configuration, with `enabled` equal to
the armed flag, `active` iff the current altitude is strictly below the
safe altitude, zeroed sample fields, and no command issued. -/
theorem c6_no_construction_validation (sa : ℚ) (sm : String) (armed : Bool)
    (alt : ℚ) :
    init sa sm armed alt =
      ({ safe_alt := sa, safe_mode := sm, active := decide (alt < sa),
         enabled := armed, last_alt := 0, last_alt_time := 0 }, []) :=
  init_spec sa sm armed alt

/-- C7 counterexample: in Scenario 1 (safe altitude 10, start disarmed at
50, arm, then readings 8 and 7), `active` is true, but the claimed
"no change" reading at 12 meters in fact clears `active`: 12 is strictly
above the hysteresis exit `safe_alt + 1 = 11`. -/
theorem c7_counterexample :
    (run (init 10 "BRAKE" false 50).1
      [Event.armed true, Event.location 8 1, Event.location 7 2]).1.active =
        true ∧
    (run (init 10 "BRAKE" false 50).1
      [Event.armed true, Event.location 8 1, Event.location 7 2,
       Event.location 12 3]).1.active = false := by
  constructor <;>
    norm_num [run, step, init, armed_callback, location_callback, hysteresis]

/-- C7 amended: with safe altitude 10, starting disarmed at altitude 50:
construction yields `active = false` and `enabled = false`; arming sets
`enabled = true`; a reading at 8 issues the `BRAKE` command and sets
`active`; a reading at 7 issues no further command; a reading at 12
clears `active` (12 exceeds the hysteresis exit 11) with no command; the
subsequent reading at 12.5 changes nothing further and issues no
command. -/
theorem c7_scenario_one :
    (init 10 "BRAKE" false 50).1.active = false ∧
    (init 10 "BRAKE" false 50).1.enabled = false ∧
    (run (init 10 "BRAKE" false 50).1 [Event.armed true]).1.enabled = true ∧
    (run (init 10 "BRAKE" false 50).1
      [Event.armed true, Event.location 8 1]).2 = [Cmd.setMode "BRAKE"] ∧
    (run (init 10 "BRAKE" false 50).1
      [Event.armed true, Event.location 8 1]).1.active = true ∧
    (run (init 10 "BRAKE" false 50).1
      [Event.armed true, Event.location 8 1, Event.location 7 2]).2 =
      [Cmd.setMode "BRAKE"] ∧
    (run (init 10 "BRAKE" false 50).1
      [Event.armed true, Event.location 8 1, Event.location 7 2,
       Event.location 12 3]).1.active = false ∧
    (run (init 10 "BRAKE" false 50).1
      [Event.armed true, Event.location 8 1, Event.location 7 2,
       Event.location 12 3]).2 = [Cmd.setMode "BRAKE"] ∧
    (run (init 10 "BRAKE" false 50).1
      [Event.armed true, Event.location 8 1, Event.location 7 2,
       Event.location 12 3, Event.location (25/2) 4]).1.active = false ∧
    (run (init 10 "BRAKE" false 50).1
      [Event.armed true, Event.location 8 1, Event.location 7 2,
       Event.location 12 3, Event.location (25/2) 4]).2 =
      [Cmd.setMode "BRAKE"] := by
  refine ⟨?_, ?_, ?_, ?_, ?_, ?_, ?_, ?_, ?_, ?_⟩ <;>
    norm_num [run, step, init, armed_callback, location_callback, hysteresis]

/-- C8: constructing with safe altitude 10 while already armed at
altitude 5 yields `active = true` and `enabled = true` immediately, with
no command issued; `init` never issues a command for any configuration,
and a command can only ever arise from a step that flips `active` from
false to true at a location event. -/
theorem c8_armed_low_boot :
    init 10 "BRAKE" true 5 =
      ({ safe_alt := 10, safe_mode := "BRAKE", active := true,
         enabled := true, last_alt := 0, last_alt_time := 0 }, []) ∧
    (∀ (sa : ℚ) (sm : String) (armed : Bool) (alt : ℚ),
      (init sa sm armed alt).2 = []) ∧
    (∀ (s : SNState) (e : Event), (step s e).2 ≠ [] →
      (∃ alt now, e = Event.location alt now) ∧ s.active = false ∧
        (step s e).1.active = true) := by
  refine ⟨by norm_num [init], fun sa sm armed alt => by rw [init_spec],
          fun s e hne => ?_⟩
  obtain ⟨h1, _, h3⟩ := step_fire_iff s e
  obtain ⟨hfa, hft⟩ := h1.mp hne
  obtain ⟨alt, now, he, _, _⟩ := h3 hfa hft
  exact ⟨⟨alt, now, he⟩, hfa, hft⟩

/-- Witness for C8: the concrete armed-at-altitude-5 construction. -/
theorem c8_armed_low_boot_witness :
    init 10 "BRAKE" true 5 =
      ({ safe_alt := 10, safe_mode := "BRAKE", active := true,
         enabled := true, last_alt := 0, last_alt_time := 0 }, []) :=
  c8_armed_low_boot.1

end SafetyNet
